import Mathlib

/-!
Shallow embedding of src/backend/services/GeminiService.js.

The remote generative-model boundary is modelled as an oracle
remote : GenRequest → Except String String  (throws with a message, or
returns the generated text, possibly empty), and the filesystem read as
fs : String → Except String String  (throws, or returns the base64 data).
JavaScript async functions surface uncaught exceptions as rejected
promises; a rejection is modelled as Except.error, so a function whose
failures can escape returns Except String α while data that is plainly
returned is the α itself.
-/

namespace GeminiService

/-- A content part of a remote-model request: inline binary data tagged
with a MIME type, or plain text. -/
inductive Part where
  | inlineData (mimeType : String) (data : String)
  | text (s : String)
deriving DecidableEq, Repr

/-- Configuration bag sent with a generation request. -/
structure GenConfig where
  maxOutputTokens : Nat
  temperature : ℚ
  systemInstruction : Option String
deriving DecidableEq, Repr

/-- One request to the remote model. -/
structure GenRequest where
  model : String
  contents : List Part
  config : GenConfig
deriving DecidableEq, Repr

/-- The uniform per-media result: the success shape carrying content, or
the failure shape carrying processed:false and an error string. -/
inductive ProcessingResult where
  | success (content : String)
  | failure (error : String)
deriving DecidableEq, Repr

/-- The JavaScript field access item.content: a string on the success
shape, undefined (none) on the failure shape. -/
def contentOf : ProcessingResult → Option String
  | .success c => some c
  | .failure _ => none

/-- The model name fixed in the constructor. -/
def geminiModel : String := "gemini-2.5-flash-preview-04-17"

/-- Constructed service state: the shared client handle. -/
structure GeminiState where
  apiKey : String
  model : String
deriving DecidableEq, Repr

/-- The constructor: throws when the credential is absent (undefined) or
empty (both falsy), otherwise stores the key and the model name. -/
def constructorGemini (apiKey : Option String) : Except String GeminiState :=
  match apiKey with
  | none => .error "Se requiere una API key de Gemini"
  | some k =>
      if k = "" then .error "Se requiere una API key de Gemini"
      else .ok { apiKey := k, model := geminiModel }

/-- Fixed instruction string of processImage. -/
def imagePrompt : String :=
  "Examine the image thoroughly. Describe every detail, including all objects, colors, textures, actions, and backgrounds. Note the position, size, and shape of each element. Capture any text, lighting, or patterns. Provide a precise, comprehensive description to fully represent the image without assumptions or interpretations."

/-- Fixed instruction string of processAudio. -/
def audioPrompt : String :=
  "Listen to the audio carefully. Transcribe every word exactly as spoken, including tone, pauses, and any background sounds. Describe the speaker\x27s accent, speed, and emotional tone. Note any unclear parts and timestamp them. Provide a precise, detailed summary of the content without adding interpretations."

/-- Fixed instruction string of processVideo. -/
def videoPrompt : String :=
  "Watch the video closely. Describe every detail, including all actions, objects, colors, textures, and backgrounds. Note the sequence, timing, and duration of events. Capture any text, lighting, camera angles, or sound elements. If evident, identify and describe the emotional or sentimental tone (e.g., joy, sadness, enthusiasm) based on clear cues like facial expressions, voice tone, or music, without assumptions. For neutral content, such as stock or demonstration videos, note the absence of emotional tone. Provide a precise, comprehensive description to fully represent the video."

/-- Fixed instruction string of processSticker. -/
def stickerPrompt : String :=
  "Examine the sticker closely. Identify and describe the specific emotions, feelings, or allusions it conveys, such as affection, gratitude, joy, or affirmation. Focus solely on the intended emotional purpose, inferred from clear visual cues like expressions, symbols (e.g., hearts), or actions. Avoid describing the image\x27s content or making assumptions beyond evident emotional intent. Provide a precise, concise analysis of the sticker\x27s emotional message."

/-- Fixed instruction string of processDocument. -/
def documentPrompt : String :=
  "Examine the document meticulously. Extract and list all key factual information, technical specifications, data points, and specific details with precision. Summarize the content accurately, focusing solely on objective information. Exclude any interpretation, sentiment analysis, or assumptions. Ensure the summary is concise, technical, and faithful to the document\x27s content."

/-- The request built by processImage: media part first, then the
instruction, token cap 2048, temperature 0.85. -/
def imageRequest (data : String) : GenRequest :=
  { model := geminiModel
    contents := [Part.inlineData "image/jpeg" data, Part.text imagePrompt]
    config := { maxOutputTokens := 2048, temperature := 0.85, systemInstruction := none } }

/-- The request built by processAudio: instruction first, then the media
part, token cap 2048, temperature 0.85. -/
def audioRequest (data : String) : GenRequest :=
  { model := geminiModel
    contents := [Part.text audioPrompt, Part.inlineData "audio/mp3" data]
    config := { maxOutputTokens := 2048, temperature := 0.85, systemInstruction := none } }

/-- The request built by processVideo: media part first, then the
instruction, token cap 2048, temperature 0.85. -/
def videoRequest (data : String) : GenRequest :=
  { model := geminiModel
    contents := [Part.inlineData "video/mp4" data, Part.text videoPrompt]
    config := { maxOutputTokens := 2048, temperature := 0.85, systemInstruction := none } }

/-- The request built by processSticker: media part first, then the
instruction, token cap 2048, temperature 1. -/
def stickerRequest (data : String) : GenRequest :=
  { model := geminiModel
    contents := [Part.inlineData "image/jpeg" data, Part.text stickerPrompt]
    config := { maxOutputTokens := 2048, temperature := 1, systemInstruction := none } }

/-- The request built by processDocument: instruction first, then the
media part, token cap 2048, temperature 0.45. -/
def documentRequest (data : String) : GenRequest :=
  { model := geminiModel
    contents := [Part.text documentPrompt, Part.inlineData "application/pdf" data]
    config := { maxOutputTokens := 2048, temperature := 0.45, systemInstruction := none } }

/-- processImage: the file read happens while building contents, before
the try block, so a read failure escapes as a rejection; only the remote
call is inside the try, and its failure becomes the fixed failure shape. -/
def processImage (fs : String → Except String String)
    (remote : GenRequest → Except String String) (imagePath : String) :
    Except String ProcessingResult :=
  match fs imagePath with
  | .error e => .error e
  | .ok data =>
      match remote (imageRequest data) with
      | .ok t => .ok (.success t)
      | .error _ => .ok (.failure "Error al procesar imagen")

/-- processAudio: read before the try (a read failure escapes), remote
failure caught into the fixed failure shape. -/
def processAudio (fs : String → Except String String)
    (remote : GenRequest → Except String String) (audioPath : String) :
    Except String ProcessingResult :=
  match fs audioPath with
  | .error e => .error e
  | .ok data =>
      match remote (audioRequest data) with
      | .ok t => .ok (.success t)
      | .error _ => .ok (.failure "Error al procesar audio")

/-- processVideo: read before the try (a read failure escapes), remote
failure caught into the fixed failure shape. -/
def processVideo (fs : String → Except String String)
    (remote : GenRequest → Except String String) (videoPath : String) :
    Except String ProcessingResult :=
  match fs videoPath with
  | .error e => .error e
  | .ok data =>
      match remote (videoRequest data) with
      | .ok t => .ok (.success t)
      | .error _ => .ok (.failure "Error al procesar video")

/-- processSticker: read before the try (a read failure escapes), remote
failure caught into the fixed failure shape. -/
def processSticker (fs : String → Except String String)
    (remote : GenRequest → Except String String) (stickerPath : String) :
    Except String ProcessingResult :=
  match fs stickerPath with
  | .error e => .error e
  | .ok data =>
      match remote (stickerRequest data) with
      | .ok t => .ok (.success t)
      | .error _ => .ok (.failure "Error al procesar sticker")

/-- processDocument: read before the try (a read failure escapes), remote
failure caught into the fixed failure shape. -/
def processDocument (fs : String → Except String String)
    (remote : GenRequest → Except String String) (documentPath : String) :
    Except String ProcessingResult :=
  match fs documentPath with
  | .error e => .error e
  | .ok data =>
      match remote (documentRequest data) with
      | .ok t => .ok (.success t)
      | .error _ => .ok (.failure "Error al procesar documento")

/-- The five media kinds. -/
inductive MediaKind where
  | image | audio | video | sticker | document
deriving DecidableEq, Repr

/-- The lowercase type key used in mediaTypes and in the results mapping. -/
def mediaKindName : MediaKind → String
  | .image => "image"
  | .audio => "audio"
  | .video => "video"
  | .sticker => "sticker"
  | .document => "document"

/-- The request each kind of processor sends for the encoded data. -/
def requestFor : MediaKind → String → GenRequest
  | .image => imageRequest
  | .audio => audioRequest
  | .video => videoRequest
  | .sticker => stickerRequest
  | .document => documentRequest

/-- The fixed kind-specific error message of each processor. -/
def mediaErrorMessage : MediaKind → String
  | .image => "Error al procesar imagen"
  | .audio => "Error al procesar audio"
  | .video => "Error al procesar video"
  | .sticker => "Error al procesar sticker"
  | .document => "Error al procesar documento"

/-- Dispatch on the kind tag, mirroring the dynamic property lookup of
processMessage. -/
def processMedia (k : MediaKind) (fs : String → Except String String)
    (remote : GenRequest → Except String String) (path : String) :
    Except String ProcessingResult :=
  match k with
  | .image => processImage fs remote path
  | .audio => processAudio fs remote path
  | .video => processVideo fs remote path
  | .sticker => processSticker fs remote path
  | .document => processDocument fs remote path

/-- JavaScript String.prototype.trim: remove whitespace from both ends,
written over the character list so that it evaluates in the kernel. -/
def jsTrim (s : String) : String :=
  String.mk (((s.data.dropWhile Char.isWhitespace).reverse.dropWhile
    Char.isWhitespace).reverse)

/-- JavaScript type.charAt(0).toUpperCase() + type.slice(1). -/
def capitalizeFirst (s : String) : String :=
  match s.data with
  | [] => ""
  | c :: rest => String.mk (c.toUpper :: rest)

/-- join of a string list with the empty separator. -/
def joinAll : List String → String
  | [] => ""
  | s :: rest => s ++ joinAll rest

/-- The aggregated status handed from processMessage to
generateFinalResponse: the results mapping (an association list in key
insertion order) and the untouched text messages. -/
structure AggregatedStatus where
  results : List (String × List ProcessingResult)
  messages : List String
deriving DecidableEq, Repr

/-- Fixed preamble of the composed final prompt. -/
def finalPreamble : String :=
  "This is the user\x27s text messages and the provided transcriptions of the audio, video, images, stickers, or documents in text format. Respond directly and concisely, continuing the conversation by addressing the user\x27s query or topic based on the transcriptions. Stay relevant, avoid misinterpretations, and do not add unrelated information."

/-- Fixed system instruction of the final generation request. -/
def finalSystemInstruction : String :=
  "You are a conversational assistant. Receive the user\x27s messages in text/plain format and any provided transcriptions or descriptions of audio, video, images, stickers, or documents in text format. If available, consider the conversation history to maintain context. Understand the context and intent of the user\x27s messages. Respond concisely and directly, continuing the conversation by addressing the user\x27s query or topic based on the provided content. Stay relevant, accurate, and focused on the objective information or emotional intent conveyed in the transcriptions. Avoid misinterpretations, assumptions, or unrelated information."

/-- The ternary chain selecting the per-kind label of a media block. -/
def mediaLabel (type : String) : String :=
  if type = "audio" then "transcription"
  else if type = "document" then "summary"
  else "description"

/-- The block one aggregated item contributes to the final prompt: a
labeled block when item.content is truthy, the empty string otherwise. -/
def itemBlock (type : String) (i : Nat) (item : ProcessingResult) : String :=
  match contentOf item with
  | some c =>
      if c = "" then ""
      else "\n\n" ++ capitalizeFirst type ++ " " ++ toString (i + 1) ++ " "
        ++ mediaLabel type ++ ": " ++ c
  | none => ""

/-- The per-media entries of the composed prompt, one per aggregated
item, in entry order then item order. -/
def mediaBlocks (results : List (String × List ProcessingResult)) : List String :=
  results.flatMap (fun entry => entry.2.mapIdx (fun i item => itemBlock entry.1 i item))

/-- The 1-indexed enumerated list of user text messages. -/
def messagesList (messages : List String) : String :=
  String.intercalate "\n" (messages.mapIdx (fun i msg => toString (i + 1) ++ ". " ++ msg))

/-- contextParts of generateFinalResponse: the candidate pieces,
filter(Boolean) dropping the falsy (empty) ones, joined with the empty
separator. -/
def composePrompt (results : List (String × List ProcessingResult))
    (messages : List String) (contextPrompt : String) : String :=
  joinAll (([finalPreamble,
    if contextPrompt = "" then "" else "\n\nConversation history:\n" ++ contextPrompt,
    if messages.length > 0 then "\n\nUser\x27s messages:\n" ++ messagesList messages
    else ""]
    ++ mediaBlocks results).filter (fun s => s ≠ ""))

/-- The request sent by attempt number attempts of the final generation
loop: temperature 0.9 plus attempts times 0.01. -/
def finalRequest (contextParts : String) (attempts : Nat) : GenRequest :=
  { model := geminiModel
    contents := [Part.text contextParts]
    config := { maxOutputTokens := 2048
                temperature := 0.9 + (attempts : ℚ) * 0.01
                systemInstruction := some finalSystemInstruction } }

/-- The do-while retry loop, driven by a structural fuel: call once,
increment attempts, repeat while the text is falsy or blank and attempts
is below maxAttempts; a thrown remote error propagates out. Returns the
attempt count and the last text. The fuel is maintained at
maxAttempts - attempts by runRetryLoop, which makes the zero-fuel branch
of the continue case unreachable (the guard attempts + 1 < maxAttempts
forces positive remaining fuel). -/
def runRetryGo (call : Nat → Except String String) (maxAttempts : Nat) :
    Nat → Nat → Except String (Nat × String)
  | fuel, attempts =>
    match call attempts with
    | .error e => .error e
    | .ok text =>
        if (text = "" ∨ jsTrim text = "") ∧ attempts + 1 < maxAttempts then
          match fuel with
          | 0 => .ok (attempts + 1, text)
          | fuel' + 1 => runRetryGo call maxAttempts fuel' (attempts + 1)
        else .ok (attempts + 1, text)

/-- The retry loop entered at a given attempt counter. -/
def runRetryLoop (call : Nat → Except String String) (maxAttempts : Nat)
    (attempts : Nat) : Except String (Nat × String) :=
  runRetryGo call maxAttempts (maxAttempts - attempts) attempts

/-- The terminal artifact: a JavaScript object with a status field and
the optional fields of the success and error shapes. -/
structure FinalResponse where
  status : String
  response : Option String := none
  resultsText : Option String := none
  message : Option String := none
  processed : Option Bool := none
  error : Option String := none
deriving DecidableEq, Repr

/-- generateFinalResponse: compose the prompt, run the bounded retry
loop, and normalize into the success shape, the empty-exhausted error
shape, or the thrown-error shape carrying error.message with its falsy
fallback. -/
def generateFinalResponse (remote : GenRequest → Except String String)
    (status : AggregatedStatus) (contextPrompt : String) : FinalResponse :=
  let contextParts := composePrompt status.results status.messages contextPrompt
  match runRetryLoop (fun attempts => remote (finalRequest contextParts attempts)) 5 0 with
  | .error e =>
      { status := "error"
        message := some "Error al generar respuesta final"
        processed := some true
        error := some (if e = "" then "Error al generar respuesta final" else e) }
  | .ok (_, text) =>
      if text = "" ∨ jsTrim text = "" then
        { status := "error"
          message := some "No se pudo generar una respuesta después de varios intentos"
          processed := some true
          error := some "Respuesta vacía después de múltiples intentos" }
      else
        { status := "success", response := some text, resultsText := some text }

/-- The destructured options object of processMessage, every collection
defaulting to empty and contextPrompt possibly absent. -/
structure MessageInput where
  texts : List String := []
  images : List String := []
  audios : List String := []
  videos : List String := []
  stickers : List String := []
  documents : List String := []
  contextPrompt : Option String := none
deriving Repr

/-- The mediaTypes object of processMessage, in its key insertion order. -/
def mediaTypesOf (input : MessageInput) : List (MediaKind × List String) :=
  [(.image, input.images), (.audio, input.audios), (.video, input.videos),
   (.sticker, input.stickers), (.document, input.documents)]

/-- The kind-tagged units of work processMessage flattens out of the
input before dispatching. -/
def unitsOf (input : MessageInput) : List (MediaKind × String) :=
  (mediaTypesOf input).flatMap (fun e => e.2.map (fun p => (e.1, p)))

/-- JavaScript property access status.results brackets type brackets on
the association-list model of an object. -/
def lookupKey (s : String) : List (String × List ProcessingResult) →
    Option (List ProcessingResult)
  | [] => none
  | (k, rs) :: rest => if k = s then some rs else lookupKey s rest

/-- Promise.all over independent units: the first rejection rejects the
whole batch, otherwise all values are collected in order. -/
def promiseAll {α β : Type} (f : α → Except String β) : List α → Except String (List β)
  | [] => .ok []
  | x :: xs =>
      match f x with
      | .error e => .error e
      | .ok y => (promiseAll f xs).map (fun ys => y :: ys)

/-- The aggregation step of processMessage: create the key with an empty
list on first use, then push the result. -/
def pushResult (m : List (String × List ProcessingResult)) (t : String)
    (r : ProcessingResult) : List (String × List ProcessingResult) :=
  match m with
  | [] => [(t, [r])]
  | (k, rs) :: rest =>
      if k = t then (k, rs ++ [r]) :: rest else (k, rs) :: pushResult rest t r

/-- The fan-out and fan-in of processMessage: flatten all media paths
into kind-tagged units, dispatch each, await the whole batch, and group
the results by kind name into the aggregated status. -/
def buildAggregated (fs : String → Except String String)
    (remote : GenRequest → Except String String) (input : MessageInput) :
    Except String AggregatedStatus :=
  let units := unitsOf input
  match promiseAll
      (fun u => (processMedia u.1 fs remote u.2).map (fun r => (mediaKindName u.1, r)))
      units with
  | .error e => .error e
  | .ok tagged =>
      .ok { results := tagged.foldl (fun acc tr => pushResult acc tr.1 tr.2) []
            messages := input.texts }

/-- processMessage: aggregate, then delegate to generateFinalResponse
with the context string (defaulting to empty when absent); a rejected
unit of work rejects the whole call. -/
def processMessage (fs : String → Except String String)
    (remote : GenRequest → Except String String) (input : MessageInput) :
    Except String FinalResponse :=
  (buildAggregated fs remote input).map
    (fun st => generateFinalResponse remote st (input.contextPrompt.getD ""))

/-- The prompt generateFinalResponse composes for a given status and
context string. -/
def promptOf (status : AggregatedStatus) (contextPrompt : String) : String :=
  composePrompt status.results status.messages contextPrompt

/-- The input collection of a given media kind. -/
def pathsOf (input : MessageInput) : MediaKind → List String
  | .image => input.images
  | .audio => input.audios
  | .video => input.videos
  | .sticker => input.stickers
  | .document => input.documents

/-- The results grouped under a given key among kind-tagged results, in
arrival order. -/
def keyResults (s : String) (T : List (String × ProcessingResult)) :
    List ProcessingResult :=
  (T.filter (fun tr => tr.1 = s)).map Prod.snd

/-- The data a successful read returns (placeholder empty on a failed
read; only used under a hypothesis that the read succeeded). -/
def dataOf (fs : String → Except String String) (p : String) : String :=
  match fs p with
  | .ok d => d
  | .error _ => ""

/-- The ProcessingResult a processor of kind k yields for encoded data d
once the read has succeeded. -/
def mediaOutcome (k : MediaKind) (remote : GenRequest → Except String String)
    (d : String) : ProcessingResult :=
  match remote (requestFor k d) with
  | .ok t => .success t
  | .error _ => .failure (mediaErrorMessage k)

/-- Fixture: a filesystem oracle on which every read succeeds. -/
def fsOkW : String → Except String String := fun _ => .ok "RGF0YQ"

/-- Fixture: a filesystem oracle on which every read throws. -/
def fsBadW : String → Except String String := fun _ => .error "ENOENT"

/-- Fixture: a remote oracle that always returns the text texto. -/
def remoteOkW : GenRequest → Except String String := fun _ => .ok "texto"

/-- Fixture: a remote oracle that always throws with message boom. -/
def remoteThrowW : GenRequest → Except String String := fun _ => .error "boom"

/-- Fixture: a remote oracle that always returns empty text. -/
def remoteEmptyW : GenRequest → Except String String := fun _ => .ok ""

/-- Fixture: a remote oracle returning empty text until the request
carries the temperature of the fifth attempt, then the text hola. -/
def remoteFifthW : GenRequest → Except String String := fun req =>
  if req.config.temperature = 0.94 then .ok "hola" else .ok ""

/-- The tagged result a unit of work settles to when its read succeeds:
the kind name paired with the outcome of the remote call. -/
def taggedOutcome (fs : String → Except String String)
    (remote : GenRequest → Except String String) :
    MediaKind × String → String × ProcessingResult :=
  fun u => (mediaKindName u.1, mediaOutcome u.1 remote (dataOf fs u.2))

theorem runRetryLoop_eq (call : Nat → Except String String) (maxAttempts j : Nat) :
    runRetryLoop call maxAttempts j =
      match call j with
      | .error e => .error e
      | .ok text =>
          if (text = "" ∨ jsTrim text = "") ∧ j + 1 < maxAttempts then
            runRetryLoop call maxAttempts (j + 1)
          else .ok (j + 1, text) := by
  unfold runRetryLoop
  rw [runRetryGo]
  cases hc : call j with
  | error e => rfl
  | ok text =>
    dsimp only
    by_cases hcond : (text = "" ∨ jsTrim text = "") ∧ j + 1 < maxAttempts
    · rw [if_pos hcond, if_pos hcond]
      have h2 : maxAttempts - j = (maxAttempts - (j + 1)) + 1 := by omega
      rw [h2]
    · rw [if_neg hcond, if_neg hcond]

theorem runRetryLoop_advance (call : Nat → Except String String)
    (maxAttempts j : Nat) (hlt : j + 1 < maxAttempts) (s : String)
    (hcall : call j = .ok s) (hs : jsTrim s = "") :
    runRetryLoop call maxAttempts j = runRetryLoop call maxAttempts (j + 1) := by
  rw [runRetryLoop_eq, hcall]
  exact if_pos ⟨Or.inr hs, hlt⟩

theorem runRetryLoop_from_zero (call : Nat → Except String String)
    (maxAttempts k : Nat) (hk : k < maxAttempts)
    (h : ∀ n, n < k → ∃ s, call n = .ok s ∧ jsTrim s = "") :
    runRetryLoop call maxAttempts 0 = runRetryLoop call maxAttempts k := by
  induction k with
  | zero => rfl
  | succ k ih =>
      obtain ⟨s, hcall, hs⟩ := h k (by omega)
      rw [ih (by omega) (fun n hn => h n (by omega)),
        runRetryLoop_advance call maxAttempts k hk s hcall hs]

theorem runRetryLoop_last (call : Nat → Except String String) (s : String)
    (hcall : call 4 = .ok s) : runRetryLoop call 5 4 = .ok (5, s) := by
  rw [runRetryLoop_eq, hcall]
  exact if_neg (fun hc => absurd hc.2 (by omega))

theorem runRetryLoop_throw (call : Nat → Except String String)
    (maxAttempts j : Nat) (e : String) (hcall : call j = .error e) :
    runRetryLoop call maxAttempts j = .error e := by
  rw [runRetryLoop_eq, hcall]

theorem processMedia_read_error (k : MediaKind)
    (fs : String → Except String String)
    (remote : GenRequest → Except String String) (path e : String)
    (h : fs path = .error e) : processMedia k fs remote path = .error e := by
  cases k <;>
    simp [processMedia, processImage, processAudio, processVideo,
      processSticker, processDocument, h]

theorem processMedia_read_ok (k : MediaKind)
    (fs : String → Except String String)
    (remote : GenRequest → Except String String) (path d : String)
    (h : fs path = .ok d) :
    processMedia k fs remote path = .ok (mediaOutcome k remote d) := by
  cases k <;>
    · simp only [processMedia, processImage, processAudio, processVideo,
        processSticker, processDocument, h, mediaOutcome, requestFor,
        mediaErrorMessage]
      cases remote (imageRequest d) <;> cases remote (audioRequest d) <;>
        cases remote (videoRequest d) <;> cases remote (stickerRequest d) <;>
        cases remote (documentRequest d) <;> rfl

/-- C6: each of the five media processors invokes the remote model with
exactly two parts in a kind-specific order (image, video, sticker: media
part first then instruction; audio, document: instruction first then
media), a token cap of 2048, and a kind-specific sampling temperature:
0.85 for image, audio and video, 1.0 for sticker, 0.45 for document. -/
theorem media_request_shape (d : String) :
    (imageRequest d).contents = [Part.inlineData "image/jpeg" d, Part.text imagePrompt] ∧
    (imageRequest d).config.maxOutputTokens = 2048 ∧
    (imageRequest d).config.temperature = 0.85 ∧
    (audioRequest d).contents = [Part.text audioPrompt, Part.inlineData "audio/mp3" d] ∧
    (audioRequest d).config.maxOutputTokens = 2048 ∧
    (audioRequest d).config.temperature = 0.85 ∧
    (videoRequest d).contents = [Part.inlineData "video/mp4" d, Part.text videoPrompt] ∧
    (videoRequest d).config.maxOutputTokens = 2048 ∧
    (videoRequest d).config.temperature = 0.85 ∧
    (stickerRequest d).contents = [Part.inlineData "image/jpeg" d, Part.text stickerPrompt] ∧
    (stickerRequest d).config.maxOutputTokens = 2048 ∧
    (stickerRequest d).config.temperature = 1 ∧
    (documentRequest d).contents = [Part.text documentPrompt, Part.inlineData "application/pdf" d] ∧
    (documentRequest d).config.maxOutputTokens = 2048 ∧
    (documentRequest d).config.temperature = 0.45 ∧
    ∀ k : MediaKind, (requestFor k d).contents.length = 2 := by
  refine ⟨rfl, rfl, rfl, rfl, rfl, rfl, rfl, rfl, rfl, rfl, rfl, rfl, rfl, rfl, rfl, ?_⟩
  intro k
  cases k <;> rfl

/-- C7: in generateFinalResponse the sampling temperature of attempt n
(the initial attempt being n equal 0) is exactly 0.90 plus n times 0.01:
it starts at 0.90 and increases by 0.01 on each retry attempt. -/
theorem final_temperature_schedule (contextParts : String) (n : Nat) :
    (finalRequest contextParts n).config.temperature = 0.9 + (n : ℚ) * 0.01 ∧
    (finalRequest contextParts 0).config.temperature = 0.9 ∧
    (finalRequest contextParts (n + 1)).config.temperature
      = (finalRequest contextParts n).config.temperature + 0.01 := by
  refine ⟨rfl, ?_, ?_⟩
  · show 0.9 + ((0 : ℕ) : ℚ) * 0.01 = 0.9
    push_cast
    ring
  · show 0.9 + (((n + 1) : ℕ) : ℚ) * 0.01 = 0.9 + (n : ℚ) * 0.01 + 0.01
    push_cast
    ring

/-- C9 counterexample: an error escapes as an uncaught exception outside
the constructor: a failing file read rejects processAudio (and in turn
processMessage), so the fail-fast constructor check is not the only
place in the module where an error escapes. -/
theorem constructor_not_only_escape :
    processAudio (fun _ => Except.error "EACCES") (fun _ => Except.ok "texto")
      "nota.mp3" = Except.error "EACCES" := rfl

/-- C9 amended: the constructor raises exactly when the API credential
is absent or empty, and with a non-empty credential it constructs the
state successfully; however this is not the only place an error escapes,
since a file read failure escapes the media processors. -/
theorem constructor_requires_credential (key : Option String) :
    (constructorGemini key = Except.error "Se requiere una API key de Gemini"
      ↔ (key = none ∨ key = some "")) ∧
    (∀ s, s ≠ "" →
      constructorGemini (some s) = Except.ok { apiKey := s, model := geminiModel }) := by
  constructor
  · cases key with
    | none => simp [constructorGemini]
    | some k =>
        by_cases hk : k = ""
        · subst hk; simp [constructorGemini]
        · simp [constructorGemini, hk]
  · intro s hs
    simp [constructorGemini, hs]

/-- C9 witness: a concrete non-empty credential constructs successfully. -/
theorem constructor_requires_credential_witness :
    ("clave" ≠ "") ∧ constructorGemini (some "clave")
      = Except.ok { apiKey := "clave", model := geminiModel } :=
  ⟨by decide, (constructor_requires_credential (some "clave")).2 "clave" (by decide)⟩

/-- C8: whenever a media processor returns a ProcessingResult, it is
exactly one of the two shapes: the success shape carrying the text of a
successful remote call, or the failure shape carrying the fixed
kind-specific message after a failed remote call; the two shapes are
mutually exclusive, and a success always carries a string content. -/
theorem processing_result_dichotomy (k : MediaKind)
    (fs : String → Except String String)
    (remote : GenRequest → Except String String) (path : String)
    (r : ProcessingResult) (h : processMedia k fs remote path = Except.ok r) :
    ((∃ d t, fs path = .ok d ∧ remote (requestFor k d) = .ok t ∧ r = .success t)
      ∨ (∃ d e, fs path = .ok d ∧ remote (requestFor k d) = .error e
          ∧ r = .failure (mediaErrorMessage k))) ∧
    (∀ c, contentOf (ProcessingResult.success c) = some c) ∧
    (∀ c e, ProcessingResult.success c ≠ ProcessingResult.failure e) := by
  refine ⟨?_, fun c => rfl, fun c e hce => by cases hce⟩
  cases hf : fs path with
  | error e =>
      rw [processMedia_read_error k fs remote path e hf] at h
      cases h
  | ok d =>
      rw [processMedia_read_ok k fs remote path d hf] at h
      injection h with h
      unfold mediaOutcome at h
      cases hr : remote (requestFor k d) with
      | ok t =>
          rw [hr] at h
          exact Or.inl ⟨d, t, rfl, hr, h.symm⟩
      | error e =>
          rw [hr] at h
          exact Or.inr ⟨d, e, rfl, hr, h.symm⟩

/-- C8 witness: a concrete processed image on a successful remote call
is the success shape with the returned text. -/
theorem processing_result_dichotomy_witness :
    ((∃ d t, fsOkW "foto.jpg" = .ok d
        ∧ remoteOkW (requestFor MediaKind.image d) = .ok t
        ∧ ProcessingResult.success "texto" = .success t)
      ∨ (∃ d e, fsOkW "foto.jpg" = .ok d
          ∧ remoteOkW (requestFor MediaKind.image d) = .error e
          ∧ ProcessingResult.success "texto"
              = .failure (mediaErrorMessage MediaKind.image))) ∧
    (∀ c, contentOf (ProcessingResult.success c) = some c) ∧
    (∀ c e, ProcessingResult.success c ≠ ProcessingResult.failure e) :=
  processing_result_dichotomy MediaKind.image fsOkW remoteOkW "foto.jpg"
    (ProcessingResult.success "texto") rfl

/-- C1 counterexample: with one image path whose read fails and one text
message, processMessage does not reach the synthesis tier and does not
return a status-carrying result: it rejects with the read error, because
the file read of processImage happens before its try block. -/
theorem read_failure_escapes_cx :
    processMessage fsBadW remoteOkW { texts := ["hola"], images := ["foto.jpg"] }
      = Except.error "ENOENT" := rfl

/-- C1 amended: every processor converts a failure of the remote call
into the failure-shaped ProcessingResult with the fixed kind-specific
message and returns a ProcessingResult whenever the file read succeeds;
but a failure to read the file escapes the processor as a rejection, and
consequently processMessage with one image path that fails to read and
one text message rejects with the read error instead of reaching the
synthesis tier. -/
theorem processor_error_containment (k : MediaKind)
    (fs : String → Except String String)
    (remote : GenRequest → Except String String) (path : String) :
    (∀ e, fs path = .error e → processMedia k fs remote path = .error e) ∧
    (∀ d, fs path = .ok d → ∀ e, remote (requestFor k d) = .error e →
      processMedia k fs remote path = .ok (.failure (mediaErrorMessage k))) ∧
    (∀ d, fs path = .ok d → ∃ r, processMedia k fs remote path = .ok r) ∧
    (∀ texts e, fs path = .error e →
      processMessage fs remote { texts := texts, images := [path] } = .error e) := by
  refine ⟨fun e he => processMedia_read_error k fs remote path e he, ?_, ?_, ?_⟩
  · intro d hd e hre
    rw [processMedia_read_ok k fs remote path d hd]
    unfold mediaOutcome
    rw [hre]
  · intro d hd
    exact ⟨mediaOutcome k remote d, processMedia_read_ok k fs remote path d hd⟩
  · intro texts e he
    have himg : processMedia MediaKind.image fs remote path = .error e :=
      processMedia_read_error MediaKind.image fs remote path e he
    simp [processMessage, buildAggregated, mediaTypesOf, promiseAll, himg,
      Except.map]

/-- C1 witness: concrete instances of the amended claim: a read failure
escapes processImage, and a remote failure is contained as the fixed
failure shape. -/
theorem processor_error_containment_witness :
    processMedia MediaKind.image fsBadW remoteOkW "foto.jpg"
      = Except.error "ENOENT" ∧
    processMedia MediaKind.image fsOkW remoteThrowW "foto.jpg"
      = Except.ok (.failure (mediaErrorMessage MediaKind.image)) ∧
    processMessage fsBadW remoteOkW { texts := ["hola"], images := ["otra.jpg"] }
      = Except.error "ENOENT" :=
  ⟨(processor_error_containment MediaKind.image fsBadW remoteOkW "foto.jpg").1
      "ENOENT" rfl,
   (processor_error_containment MediaKind.image fsOkW remoteThrowW "foto.jpg").2.1
      "RGF0YQ" rfl "boom" rfl,
   (processor_error_containment MediaKind.image fsBadW remoteOkW "otra.jpg").2.2.2
      ["hola"] "ENOENT" rfl⟩

theorem generateFinalResponse_eq (remote : GenRequest → Except String String)
    (status : AggregatedStatus) (contextPrompt : String) :
    generateFinalResponse remote status contextPrompt =
      match runRetryLoop
          (fun attempts => remote (finalRequest (promptOf status contextPrompt) attempts))
          5 0 with
      | .error e =>
          { status := "error"
            message := some "Error al generar respuesta final"
            processed := some true
            error := some (if e = "" then "Error al generar respuesta final" else e) }
      | .ok (_, text) =>
          if text = "" ∨ jsTrim text = "" then
            { status := "error"
              message := some "No se pudo generar una respuesta después de varios intentos"
              processed := some true
              error := some "Respuesta vacía después de múltiples intentos" }
          else
            { status := "success", response := some text, resultsText := some text } := rfl

/-- C2: generateFinalResponse retries on blank text up to 5 attempts in
total: when the remote stub returns blank text on attempts 1 to 4 and a
non-blank text on attempt 5, the result is the success shape carrying
that fifth text; when all five attempts return blank text, the loop
stops after exactly 5 attempts and the structured error result with the
message No se pudo generar una respuesta despues de varios intentos is
returned without raising. -/
theorem genfinal_retry_behavior (remote : GenRequest → Except String String)
    (status : AggregatedStatus) (contextPrompt t : String) :
    ((∀ n, n < 4 →
        ∃ s, remote (finalRequest (promptOf status contextPrompt) n) = .ok s ∧ jsTrim s = "") →
      remote (finalRequest (promptOf status contextPrompt) 4) = .ok t →
      jsTrim t ≠ "" →
      generateFinalResponse remote status contextPrompt
        = { status := "success", response := some t, resultsText := some t }) ∧
    ((∀ n, n < 5 →
        ∃ s, remote (finalRequest (promptOf status contextPrompt) n) = .ok s ∧ jsTrim s = "") →
      (∃ s, runRetryLoop
          (fun attempts => remote (finalRequest (promptOf status contextPrompt) attempts))
          5 0 = .ok (5, s)) ∧
      generateFinalResponse remote status contextPrompt
        = { status := "error"
            message := some "No se pudo generar una respuesta después de varios intentos"
            processed := some true
            error := some "Respuesta vacía después de múltiples intentos" }) := by
  constructor
  · intro hprev h4 ht
    rw [generateFinalResponse_eq,
      runRetryLoop_from_zero _ 5 4 (by omega) hprev,
      runRetryLoop_last _ t h4]
    dsimp only
    rw [if_neg]
    rintro (h0 | h1)
    · exact ht (by rw [h0]; rfl)
    · exact ht h1
  · intro hall
    obtain ⟨s4, hc4, hs4⟩ := hall 4 (by omega)
    have hloop : runRetryLoop
        (fun attempts => remote (finalRequest (promptOf status contextPrompt) attempts))
        5 0 = .ok (5, s4) := by
      rw [runRetryLoop_from_zero _ 5 4 (by omega) (fun n hn => hall n (by omega)),
        runRetryLoop_last _ s4 hc4]
    refine ⟨⟨s4, hloop⟩, ?_⟩
    rw [generateFinalResponse_eq, hloop]
    dsimp only
    rw [if_pos (Or.inr hs4)]

/-- C2 witness: a stub blank until the temperature of the fifth attempt
yields the success shape with hola, and an always-blank stub yields the
exhausted-retries error after exactly 5 attempts. -/
theorem genfinal_retry_behavior_witness :
    generateFinalResponse remoteFifthW ⟨[], []⟩ ""
      = { status := "success", response := some "hola", resultsText := some "hola" } ∧
    (∃ s, runRetryLoop
        (fun attempts => remoteEmptyW (finalRequest (promptOf ⟨[], []⟩ "") attempts))
        5 0 = .ok (5, s)) ∧
    generateFinalResponse remoteEmptyW ⟨[], []⟩ ""
      = { status := "error"
          message := some "No se pudo generar una respuesta después de varios intentos"
          processed := some true
          error := some "Respuesta vacía después de múltiples intentos" } := by
  refine ⟨?_, ?_⟩
  · apply (genfinal_retry_behavior remoteFifthW ⟨[], []⟩ "" "hola").1
    · intro n hn
      refine ⟨"", ?_, rfl⟩
      show (if (finalRequest (promptOf ⟨[], []⟩ "") n).config.temperature = 0.94
          then Except.ok "hola" else Except.ok "") = Except.ok ""
      have ht : (finalRequest (promptOf ⟨[], []⟩ "") n).config.temperature
          = 0.9 + (n : ℚ) * 0.01 := rfl
      rw [ht, if_neg]
      interval_cases n <;> push_cast <;> norm_num
    · show (if (finalRequest (promptOf ⟨[], []⟩ "") 4).config.temperature = 0.94
          then Except.ok "hola" else Except.ok "") = Except.ok "hola"
      have ht : (finalRequest (promptOf ⟨[], []⟩ "") 4).config.temperature
          = 0.9 + ((4 : ℕ) : ℚ) * 0.01 := rfl
      rw [ht, if_pos]
      push_cast
      norm_num
    · decide
  · exact (genfinal_retry_behavior remoteEmptyW ⟨[], []⟩ "" "").2
      (fun n _ => ⟨"", rfl, rfl⟩)

/-- C3: when the remote call inside generateFinalResponse throws at any
attempt (every earlier attempt having returned blank text), the loop
aborts immediately with that error and the function returns the
structured error result whose error field carries the thrown message,
without raising to the caller. -/
theorem genfinal_throw_aborts (remote : GenRequest → Except String String)
    (status : AggregatedStatus) (contextPrompt : String) (k : Nat) (e : String)
    (hk : k < 5)
    (hprev : ∀ n, n < k →
      ∃ s, remote (finalRequest (promptOf status contextPrompt) n) = .ok s ∧ jsTrim s = "")
    (hthrow : remote (finalRequest (promptOf status contextPrompt) k) = .error e)
    (he : e ≠ "") :
    runRetryLoop
      (fun attempts => remote (finalRequest (promptOf status contextPrompt) attempts))
      5 0 = .error e ∧
    generateFinalResponse remote status contextPrompt
      = { status := "error"
          message := some "Error al generar respuesta final"
          processed := some true
          error := some e } := by
  have hloop : runRetryLoop
      (fun attempts => remote (finalRequest (promptOf status contextPrompt) attempts))
      5 0 = .error e := by
    rw [runRetryLoop_from_zero _ 5 k hk hprev, runRetryLoop_throw _ 5 k e hthrow]
  refine ⟨hloop, ?_⟩
  rw [generateFinalResponse_eq, hloop]
  dsimp only
  rw [if_neg he]

/-- C3 witness: a stub that throws boom on the first attempt produces
the thrown-error shape carrying boom, with no retry. -/
theorem genfinal_throw_aborts_witness :
    runRetryLoop
      (fun attempts => remoteThrowW (finalRequest (promptOf ⟨[], []⟩ "") attempts))
      5 0 = .error "boom" ∧
    generateFinalResponse remoteThrowW ⟨[], []⟩ ""
      = { status := "error"
          message := some "Error al generar respuesta final"
          processed := some true
          error := some "boom" } :=
  genfinal_throw_aborts remoteThrowW ⟨[], []⟩ "" 0 "boom" (by omega)
    (fun n hn => absurd hn (by omega)) rfl (by decide)

theorem joinAll_append (l₁ l₂ : List String) :
    joinAll (l₁ ++ l₂) = joinAll l₁ ++ joinAll l₂ := by
  induction l₁ with
  | nil => rw [List.nil_append, joinAll, String.empty_append]
  | cons a l ih => rw [List.cons_append, joinAll, joinAll, ih, String.append_assoc]

theorem joinAll_filter (l : List String) :
    joinAll (l.filter (fun s => s ≠ "")) = joinAll l := by
  induction l with
  | nil => rfl
  | cons a l ih =>
      by_cases ha : a = ""
      · subst ha
        rw [joinAll, String.empty_append, ← ih]
        rfl
      · rw [List.filter_cons_of_pos (by simpa using ha), joinAll, joinAll, ih]

/-- C4: every aggregated item with non-empty content contributes exactly
one labeled block Kind index-plus-one label: content, 1-indexed within
its kind, with label transcription for audio, summary for document and
description otherwise; every failure-shaped or empty-content item
contributes the empty block, so its error text never enters the
composed prompt. -/
theorem media_block_spec (type : String) (i : Nat) :
    (∀ c, c ≠ "" → itemBlock type i (.success c)
      = "\n\n" ++ capitalizeFirst type ++ " " ++ toString (i + 1) ++ " "
        ++ mediaLabel type ++ ": " ++ c) ∧
    itemBlock type i (.success "") = "" ∧
    (∀ e, itemBlock type i (.failure e) = "") ∧
    mediaLabel "audio" = "transcription" ∧
    mediaLabel "document" = "summary" ∧
    (type ≠ "audio" → type ≠ "document" → mediaLabel type = "description") ∧
    (∀ items : List ProcessingResult,
      (List.mapIdx (fun n item => itemBlock type n item) items).length
        = items.length) ∧
    (∀ (items : List ProcessingResult) (j : Nat),
      (List.mapIdx (fun n item => itemBlock type n item) items)[j]?
        = (items[j]?).map (fun item => itemBlock type j item)) := by
  refine ⟨?_, rfl, fun e => rfl, rfl, rfl, ?_, ?_, ?_⟩
  · intro c hc
    simp [itemBlock, contentOf, hc]
  · intro h1 h2
    simp [mediaLabel, h1, h2]
  · intro items
    simp
  · intro items j
    exact List.getElem?_mapIdx

/-- C4 witness: a success-shaped audio item at position two yields its
single labeled block, a failure-shaped item yields the empty block, and
the image label is description. -/
theorem media_block_spec_witness :
    itemBlock "audio" 1 (.success "blah") = "\n\nAudio 2 transcription: blah" ∧
    itemBlock "audio" 1 (.failure "Error al procesar audio") = "" ∧
    mediaLabel "image" = "description" := by
  refine ⟨?_, ?_, ?_⟩
  · exact ((media_block_spec "audio" 1).1 "blah" (by decide)).trans (by decide)
  · exact (media_block_spec "audio" 1).2.2.1 "Error al procesar audio"
  · exact (media_block_spec "image" 0).2.2.2.2.2.1 (by decide) (by decide)

/-- C5: the composed final prompt concatenates, in order, the fixed
preamble, the conversation-history block exactly when the context string
is non-empty, the 1-indexed enumerated user-messages block exactly when
at least one text message exists, then the per-media blocks; for
all-empty input the prompt is the preamble plus only the context block,
and processMessage on all-empty input goes straight to synthesis with an
empty aggregated status. -/
theorem composed_prompt_structure
    (results : List (String × List ProcessingResult))
    (messages : List String) (ctx : String) :
    (composePrompt results messages ctx =
      finalPreamble
        ++ (if ctx = "" then "" else "\n\nConversation history:\n" ++ ctx)
        ++ (if messages.length > 0 then "\n\nUser\x27s messages:\n" ++ messagesList messages
            else "")
        ++ joinAll (mediaBlocks results)) ∧
    (composePrompt [] [] ctx
      = finalPreamble
        ++ (if ctx = "" then "" else "\n\nConversation history:\n" ++ ctx)) ∧
    (∀ (fs : String → Except String String)
        (remote : GenRequest → Except String String),
      processMessage fs remote { texts := [], contextPrompt := some ctx }
        = .ok (generateFinalResponse remote ⟨[], []⟩ ctx)) := by
  have hmain : ∀ (rs : List (String × List ProcessingResult))
      (ms : List String),
      composePrompt rs ms ctx =
        finalPreamble
          ++ (if ctx = "" then "" else "\n\nConversation history:\n" ++ ctx)
          ++ (if ms.length > 0 then "\n\nUser\x27s messages:\n" ++ messagesList ms
              else "")
          ++ joinAll (mediaBlocks rs) := by
    intro rs ms
    rw [composePrompt, joinAll_filter, joinAll_append]
    simp [joinAll, String.append_assoc, String.append_empty]
  refine ⟨hmain results messages, ?_, fun fs remote => rfl⟩
  rw [hmain [] []]
  simp [mediaBlocks, joinAll, String.append_empty]

theorem lookupKey_pushResult_self (m : List (String × List ProcessingResult))
    (t : String) (r : ProcessingResult) :
    lookupKey t (pushResult m t r) = some (((lookupKey t m).getD []) ++ [r]) := by
  induction m with
  | nil => simp [pushResult, lookupKey]
  | cons e m ih =>
      obtain ⟨k, rs⟩ := e
      by_cases hkt : k = t
      · subst hkt
        simp [pushResult, lookupKey]
      · rw [pushResult, if_neg hkt, lookupKey, if_neg hkt, ih, lookupKey, if_neg hkt]

theorem lookupKey_pushResult_ne (m : List (String × List ProcessingResult))
    (s t : String) (r : ProcessingResult) (hne : t ≠ s) :
    lookupKey s (pushResult m t r) = lookupKey s m := by
  induction m with
  | nil => simp [pushResult, lookupKey, hne]
  | cons e m ih =>
      obtain ⟨k, rs⟩ := e
      by_cases hkt : k = t
      · subst hkt
        rw [pushResult, if_pos rfl, lookupKey, lookupKey, if_neg hne, if_neg hne]
      · rw [pushResult, if_neg hkt, lookupKey, lookupKey]
        by_cases hks : k = s
        · rw [if_pos hks, if_pos hks]
        · rw [if_neg hks, if_neg hks, ih]

theorem keyResults_cons (s : String) (tr : String × ProcessingResult)
    (T : List (String × ProcessingResult)) :
    keyResults s (tr :: T)
      = if tr.1 = s then tr.2 :: keyResults s T else keyResults s T := by
  by_cases h : tr.1 = s
  · simp [keyResults, List.filter_cons, h]
  · simp [keyResults, List.filter_cons, h]

theorem groupFold_lookup (s : String) (T : List (String × ProcessingResult)) :
    ∀ m : List (String × List ProcessingResult),
    lookupKey s (T.foldl (fun acc tr => pushResult acc tr.1 tr.2) m)
      = match lookupKey s m with
        | some rs => some (rs ++ keyResults s T)
        | none => if keyResults s T = [] then none
                  else some (keyResults s T) := by
  induction T with
  | nil =>
      intro m
      cases h : lookupKey s m <;> simp [keyResults, h]
  | cons tr T ih =>
      intro m
      obtain ⟨t, r⟩ := tr
      rw [List.foldl_cons, ih (pushResult m t r), keyResults_cons]
      dsimp only
      by_cases hts : t = s
      · subst hts
        rw [lookupKey_pushResult_self, if_pos rfl]
        cases h : lookupKey t m with
        | none => simp [h]
        | some rs => simp [h, List.append_assoc]
      · rw [lookupKey_pushResult_ne m s t r hts, if_neg hts]

theorem promiseAll_map {α β : Type} (f : α → Except String β) (g : α → β)
    (l : List α) (h : ∀ x ∈ l, f x = .ok (g x)) :
    promiseAll f l = .ok (l.map g) := by
  induction l with
  | nil => rfl
  | cons x xs ih =>
      rw [promiseAll, h x (List.mem_cons_self x xs),
        ih (fun y hy => h y (List.mem_cons_of_mem x hy))]
      rfl

theorem mediaKindName_inj (k k' : MediaKind)
    (h : mediaKindName k = mediaKindName k') : k = k' := by
  cases k <;> cases k' <;> simp_all [mediaKindName]

theorem mem_unitsOf (input : MessageInput) (u : MediaKind × String)
    (hu : u ∈ unitsOf input) : u.2 ∈ pathsOf input u.1 := by
  simp only [unitsOf, mediaTypesOf, List.flatMap_cons, List.flatMap_nil,
    List.mem_append, List.mem_map, List.append_nil] at hu
  rcases hu with (⟨p, hp, rfl⟩ | ⟨p, hp, rfl⟩ | ⟨p, hp, rfl⟩ | ⟨p, hp, rfl⟩ | ⟨p, hp, rfl⟩) <;>
    simpa [pathsOf] using hp

theorem filter_tag_self (k : MediaKind) (l : List String) :
    (l.map (fun p => (k, p))).filter (fun u => u.1 = k) = l.map (fun p => (k, p)) := by
  induction l with
  | nil => rfl
  | cons p l ih => simp [List.filter_cons, ih]

theorem filter_tag_ne (k' k : MediaKind) (h : k' ≠ k) (l : List String) :
    (l.map (fun p => (k', p))).filter (fun u => u.1 = k) = [] := by
  induction l with
  | nil => rfl
  | cons p l ih => simp [List.filter_cons, ih, h]

theorem filter_flatMap_tag (entries : List (MediaKind × List String)) (k : MediaKind) :
    (entries.flatMap (fun e => e.2.map (fun p => (e.1, p)))).filter (fun u => u.1 = k)
      = (entries.filter (fun e => e.1 = k)).flatMap
          (fun e => e.2.map (fun p => (e.1, p))) := by
  induction entries with
  | nil => rfl
  | cons e es ih =>
      obtain ⟨k', l⟩ := e
      rw [List.flatMap_cons, List.filter_append, ih, List.filter_cons]
      by_cases h : k' = k
      · subst h
        simp [filter_tag_self]
      · simp [h, filter_tag_ne k' k h l]

theorem unitsOf_filter (input : MessageInput) (k : MediaKind) :
    (unitsOf input).filter (fun u => u.1 = k)
      = (pathsOf input k).map (fun p => (k, p)) := by
  rw [unitsOf, filter_flatMap_tag]
  cases k <;> simp [mediaTypesOf, pathsOf]

/-- C10: provided every supplied path reads successfully (so no unit of
work rejects), the aggregated status built by processMessage has a key
for a media kind exactly when at least one path of that kind was
supplied, the list under each present kind holds exactly one
ProcessingResult per supplied path of that kind, and the messages field
is exactly the callers texts sequence, unchanged. -/
theorem aggregated_status_spec (fs : String → Except String String)
    (remote : GenRequest → Except String String) (input : MessageInput)
    (hfs : ∀ (k : MediaKind) (p : String), p ∈ pathsOf input k → ∃ d, fs p = .ok d) :
    ∃ st, buildAggregated fs remote input = .ok st ∧
      st.messages = input.texts ∧
      ∀ k : MediaKind,
        ((lookupKey (mediaKindName k) st.results).isSome ↔ pathsOf input k ≠ []) ∧
        (∀ l, lookupKey (mediaKindName k) st.results = some l
          → l.length = (pathsOf input k).length) := by
  have hok : ∀ u ∈ unitsOf input,
      (processMedia u.1 fs remote u.2).map (fun r => (mediaKindName u.1, r))
        = .ok (taggedOutcome fs remote u) := by
    intro u hu
    obtain ⟨d, hd⟩ := hfs u.1 u.2 (mem_unitsOf input u hu)
    have hdata : dataOf fs u.2 = d := by rw [dataOf, hd]
    rw [processMedia_read_ok u.1 fs remote u.2 d hd, taggedOutcome, hdata]
    rfl
  have hall : promiseAll
      (fun u => (processMedia u.1 fs remote u.2).map (fun r => (mediaKindName u.1, r)))
      (unitsOf input)
      = .ok ((unitsOf input).map (taggedOutcome fs remote)) :=
    promiseAll_map _ (taggedOutcome fs remote) _ hok
  refine ⟨{ results := ((unitsOf input).map (taggedOutcome fs remote)).foldl
              (fun acc tr => pushResult acc tr.1 tr.2) []
            messages := input.texts }, ?_, rfl, ?_⟩
  · simp only [buildAggregated]
    rw [hall]
  · intro k
    have hlk : lookupKey (mediaKindName k)
        (((unitsOf input).map (taggedOutcome fs remote)).foldl
          (fun acc tr => pushResult acc tr.1 tr.2) [])
        = if keyResults (mediaKindName k) ((unitsOf input).map (taggedOutcome fs remote)) = []
          then none
          else some (keyResults (mediaKindName k)
            ((unitsOf input).map (taggedOutcome fs remote))) := by
      have h0 := groupFold_lookup (mediaKindName k)
        ((unitsOf input).map (taggedOutcome fs remote)) []
      simpa [lookupKey] using h0
    have hkr : keyResults (mediaKindName k) ((unitsOf input).map (taggedOutcome fs remote))
        = (pathsOf input k).map (fun p => (taggedOutcome fs remote (k, p)).2) := by
      rw [keyResults, List.filter_map,
        List.filter_congr (fun u _ => ?_), unitsOf_filter input k,
        List.map_map, List.map_map]
      · rfl
      · show decide ((taggedOutcome fs remote u).1 = mediaKindName k) = decide (u.1 = k)
        exact decide_eq_decide.mpr
          ⟨fun h => mediaKindName_inj _ _ h, fun h => by rw [show (taggedOutcome fs remote u).1 = mediaKindName u.1 from rfl, h]⟩
    constructor
    · rw [hlk, hkr]
      by_cases hp : pathsOf input k = []
      · simp [hp]
      · simp [hp]
    · intro l hl
      rw [hlk, hkr] at hl
      by_cases hp : pathsOf input k = []
      · simp [hp] at hl
      · have hne : ¬ ((pathsOf input k).map
            (fun p => (taggedOutcome fs remote (k, p)).2) = []) := by
          simpa using hp
        rw [if_neg hne] at hl
        have := Option.some_inj.mp hl
        rw [← this, List.length_map]

/-- C10 witness: a concrete input with one image path and one text, on
an all-successful filesystem, aggregates to a status carrying the text
unchanged and an image key. -/
theorem aggregated_status_spec_witness :
    (∀ (k : MediaKind) (p : String),
      p ∈ pathsOf { texts := ["hola"], images := ["a.jpg"] } k
        → ∃ d, fsOkW p = .ok d) ∧
    ∃ st, buildAggregated fsOkW remoteOkW { texts := ["hola"], images := ["a.jpg"] }
        = .ok st ∧
      st.messages = ["hola"] ∧
      (lookupKey "image" st.results).isSome := by
  refine ⟨fun k p _ => ⟨"RGF0YQ", rfl⟩, ?_⟩
  obtain ⟨st, h1, h2, h3⟩ := aggregated_status_spec fsOkW remoteOkW
    { texts := ["hola"], images := ["a.jpg"] } (fun k p _ => ⟨"RGF0YQ", rfl⟩)
  refine ⟨st, h1, h2, ?_⟩
  have h4 := (h3 MediaKind.image).1
  rw [show mediaKindName MediaKind.image = "image" from rfl] at h4
  exact h4.mpr (by simp [pathsOf])
